import Mathlib

/-!
A shallow embedding of the dataset-resolver logic of `src/ImarisReader.py`
(class `ImarisReaderLogic`): `get_resolution_levels` (lines 160-180) and
`run` (lines 205-270), together with the Strategy B spacing synthesis that
the specification attributes to an earlier snapshot of the module, which is
not present under `src/`.

Modelling conventions:
* The `ims` reader's `metaData` dict maps `(level, timepoint, channel, field)`
  keys to heterogeneous values.  It is embedded as `IMSMeta`, one partial map
  per `field` string (the key triple is curried): `resolution` keys hold
  float 3-tuples (axis-major z, y, x) and `shape` keys hold int 5-tuples
  (t, c, z, y, x).  The Python membership test
  `(l, t, c, 'resolution') in metaData` corresponds to
  `(m.resolution l t c).isSome`, and a raw dict access on an absent key
  raises `KeyError`, embedded as `PyError.keyError`.
* Python floats are modelled as rationals `ℚ`.
* The underlying HDF5 file object (`ims_file.hf`) is embedded as a partial
  map from group path strings to the list of the group's children in
  `values()` order (`H5File`); each child records whether it is an
  `h5py.Dataset`, its attribute map, and its voxel data.  A failed
  `h5_file[path]` subscript raises `KeyError` carrying the path, embedded as
  `PyError.h5KeyError`.
* `np.fromstring(..., sep=' ')` is an external library call; it is taken as
  an oracle parameter `parse : String → Option (List ℚ)`, where `none`
  stands for a raised exception.
* A raised exception is an `Except.error` value.  Each
  `add_image_as_volume_node` call is recorded in order on the `emitted`
  list of the result; each `logging.warning` call is recorded on the
  `warnings` list.  Screenshot capture is host glue with no effect on the
  resolver state and is not modelled.
* The `while True` probe loop of `get_resolution_levels` terminates in
  Python because the metadata dict is finite; the embedding makes the
  recursion structural with an explicit `fuel` bound, and every theorem
  assumes the fuel exceeds the first absent level.
-/

namespace ImarisReader

/-- Embedding of `ims_file.metaData`: the per-field partial maps from
`(level, timepoint, channel)` to the stored value.  `resolution` values are
per-axis spacings in axis-major (z, y, x) order; `shape` values are
(t, c, z, y, x) extents. -/
structure IMSMeta where
  resolution : Nat → Nat → Nat → Option (ℚ × ℚ × ℚ)
  shape : Nat → Nat → Nat → Option (Nat × Nat × Nat × Nat × Nat)

/-- One entry of the list built by `get_resolution_levels`
(src/ImarisReader.py lines 172-176): the dict
`{'level': level, 'resolution': metaData[res_key], 'shape': metaData[shape_key]}`. -/
structure LevelInfo where
  level : Nat
  resolution : ℚ × ℚ × ℚ
  shape : Nat × Nat × Nat × Nat × Nat
deriving DecidableEq

/-- The exceptions the embedded code can raise: a metadata dict `KeyError`
(carrying the offending `(level, timepoint, channel, field)` key), an h5py
subscript `KeyError` (carrying the attempted path), the explicit
`ValueError` of line 256 (carrying its message), and exhaustion of the
structural fuel that replaces the source's `while True`. -/
inductive PyError where
  | keyError (level timepoint channel : Nat) (field : String) : PyError
  | h5KeyError (path : String) : PyError
  | valueError (msg : String) : PyError
  | fuelExhausted : PyError
deriving DecidableEq

/-- A child of an HDF5 group, as seen by `group.values()`: whether it is an
`h5py.Dataset` (as opposed to a sub-group), its attribute map (`item.attrs`,
string-valued), and its voxel data (the result of `np.asarray(dataset)`,
flattened). -/
structure H5Item where
  isDataset : Bool
  attrs : String → Option String
  data : List Nat

/-- Embedding of the h5py file object: group path to list of children in
`values()` order; `none` means the path does not exist (subscripting it
raises `KeyError`). -/
abbrev H5File := String → Option (List H5Item)

/-- One volume node added to the Slicer scene by
`add_image_as_volume_node` (lines 182-193): name, array data, spacing in
display (x, y, z) order, origin. -/
structure VolumeNode where
  name : String
  data : List Nat
  spacing : ℚ × ℚ × ℚ
  origin : List ℚ
deriving DecidableEq

/-- The observable outcome of one `run` call: the volume nodes added to the
scene (in order, including those added before a raised exception), the
warnings logged, and either the raised exception or the returned `True`. -/
structure RunResult where
  emitted : List VolumeNode
  warnings : List String
  outcome : Except PyError Bool

/-- The probe loop of `get_resolution_levels` (lines 166-179): while the
`(level, 0, 0, 'resolution')` key is present, append
`{'level', 'resolution', 'shape'}` (the raw `shape` access may raise
`KeyError`) and increment `level`; stop at the first absent resolution key. -/
def get_resolution_levels_loop (m : IMSMeta) :
    Nat → Nat → List LevelInfo → Except PyError (List LevelInfo)
  | 0, _, _ => Except.error PyError.fuelExhausted
  | fuel + 1, level, acc =>
    match m.resolution level 0 0 with
    | none => Except.ok acc
    | some r =>
      match m.shape level 0 0 with
      | none => Except.error (PyError.keyError level 0 0 "shape")
      | some s =>
        get_resolution_levels_loop m fuel (level + 1) (acc ++ [⟨level, r, s⟩])

/-- `ImarisReaderLogic.get_resolution_levels` (lines 160-180), started at
level 0 with an empty accumulator. -/
def get_resolution_levels (m : IMSMeta) (fuel : Nat) :
    Except PyError (List LevelInfo) :=
  get_resolution_levels_loop m fuel 0 []

/-- The channel group path built on lines 241-246:
`DataSet/ResolutionLevel <level>/TimePoint 0/Channel <channel>` (the
timepoint is hardcoded to 0 on line 242). -/
def channel_group_path (level channel : Nat) : String :=
  "DataSet/ResolutionLevel " ++ toString level ++ "/TimePoint 0/Channel "
    ++ toString channel

/-- The literal path used by the origin lookup on line 228. -/
def res0_channel_path : String :=
  "DataSet/ResolutionLevel 0/TimePoint 0/Channel 0"

/-- The warning of line 235 (the interpolated exception text is elided). -/
def origin_warning : String :=
  "Could not read origin from IMS file, defaulting to (0,0,0)."

/-- The origin scan of lines 229-232: the `ExtMin` attribute text of the
first child that is an `h5py.Dataset` and has an `ExtMin` attribute. -/
def find_extmin (items : List H5Item) : Option String :=
  items.findSome? (fun it => if it.isDataset then it.attrs "ExtMin" else none)

/-- The origin block of `run` (lines 224-235): start from `[0, 0, 0]`, try
to read and parse the `ExtMin` attribute from the level-0 timepoint-0
channel-0 group; any raised exception (missing group, failed parse) is
caught, logs the warning and leaves the default in place.  When no child
carries `ExtMin` the loop just completes: no exception, no warning.
Returns (origin, logged warnings). -/
def read_origin (h5 : H5File) (parse : String → Option (List ℚ)) :
    List ℚ × List String :=
  match h5 res0_channel_path with
  | none => ([0, 0, 0], [origin_warning])
  | some items =>
    match find_extmin items with
    | none => ([0, 0, 0], [])
    | some s =>
      match parse s with
      | some v => (v, [])
      | none => ([0, 0, 0], [origin_warning])

/-- The dataset scan of lines 249-253: the first child of the channel group
that is an `h5py.Dataset`. -/
def find_dataset (items : List H5Item) : Option H5Item :=
  items.find? (fun it => it.isDataset)

/-- The `ValueError` message of line 256 for a given channel group path. -/
def no_dataset_msg (path : String) : String :=
  "Could not find a dataset within the HDF5 group: " ++ path

/-- The node name synthesized on line 261:
`Channel_<channel_index>-res_<resolutionLevelIndex>`. -/
def node_name (channel level : Nat) : String :=
  "Channel_" ++ toString channel ++ "-res_" ++ toString level

/-- The channel loop of `run` (lines 238-263), iterating
`channel_index in range(num_channels)`: look up the channel group (a
missing path raises `KeyError` with the path), find the first dataset child
(none raises the `ValueError` of line 256), read its data and add a volume
node.  The first argument of the recursion is the current channel index,
the second the number of remaining iterations.  Returns the nodes added (in
order, up to a raised exception) and the loop outcome. -/
def load_channels (h5 : H5File) (level : Nat) (spacing_xyz : ℚ × ℚ × ℚ)
    (origin_xyz : List ℚ) : Nat → Nat → List VolumeNode × Except PyError Unit
  | _, 0 => ([], Except.ok ())
  | ch, n + 1 =>
    match h5 (channel_group_path level ch) with
    | none =>
      ([], Except.error (PyError.h5KeyError (channel_group_path level ch)))
    | some items =>
      match find_dataset items with
      | none =>
        ([], Except.error
          (PyError.valueError (no_dataset_msg (channel_group_path level ch))))
      | some d =>
        let node : VolumeNode :=
          ⟨node_name ch level, d.data, spacing_xyz, origin_xyz⟩
        let r := load_channels h5 level spacing_xyz origin_xyz (ch + 1) n
        (node :: r.1, r.2)

/-- `ImarisReaderLogic.run` (lines 205-270): look up `resolution` and
`shape` for the requested level in the metadata dict (raw accesses, each may
raise `KeyError`); reverse the axis-major spacing into display order
(line 222: `(spacing_zyx[2], spacing_zyx[1], spacing_zyx[0])`); resolve the
origin with fallback; then run the channel loop with
`num_channels = shape_tczyx[1]` (line 238).  On success returns `True`. -/
def run (m : IMSMeta) (h5 : H5File) (parse : String → Option (List ℚ))
    (resolutionLevelIndex : Nat) : RunResult :=
  match m.resolution resolutionLevelIndex 0 0 with
  | none =>
    ⟨[], [], Except.error (PyError.keyError resolutionLevelIndex 0 0 "resolution")⟩
  | some spacing_zyx =>
    match m.shape resolutionLevelIndex 0 0 with
    | none =>
      ⟨[], [], Except.error (PyError.keyError resolutionLevelIndex 0 0 "shape")⟩
    | some shape_tczyx =>
      let spacing_xyz : ℚ × ℚ × ℚ :=
        (spacing_zyx.2.2, spacing_zyx.2.1, spacing_zyx.1)
      let og := read_origin h5 parse
      let num_channels := shape_tczyx.2.1
      let r := load_channels h5 resolutionLevelIndex spacing_xyz og.1 0 num_channels
      match r.2 with
      | Except.error e => ⟨r.1, og.2, Except.error e⟩
      | Except.ok _ => ⟨r.1, og.2, Except.ok true⟩

/-- Reversal of an axis-major (z, y, x) 3-tuple into display (x, y, z)
order, as performed once on line 222. -/
def reverse3 (p : ℚ × ℚ × ℚ) : ℚ × ℚ × ℚ :=
  (p.2.2, p.2.1, p.1)

/-- The names of the nodes emitted for channel indices `0 .. C-1` at a
given level, per line 261. -/
def channel_node_names (level C : Nat) : List String :=
  (List.range C).map (fun i => node_name i level)

/-- Modelled from the spec: Strategy B base-level spacing synthesis,
`adjusted = base * (2 ** level)` applied per axis to a caller-supplied base
spacing (level 0, display order).  The snapshot of the module implementing
Strategy B is not under `src/`; only this spec sentence describes it. -/
def strategyB_spacing (base : List ℚ) (level : Nat) : List ℚ :=
  base.map (fun s => s * 2 ^ level)

/-! ### Concrete containers used by witnesses and counterexamples -/

/-- A parse oracle on which `np.fromstring` always raises. -/
def noParse : String → Option (List ℚ) := fun _ => none

/-- A dataset child with no attributes and a one-voxel payload. -/
def dataItem : H5Item := ⟨true, fun _ => none, [7]⟩

/-- A sub-group child (not an `h5py.Dataset`). -/
def subGroupItem : H5Item := ⟨false, fun _ => none, []⟩

/-- A dataset child carrying an `ExtMin` attribute with unparsable text. -/
def extMinItem : H5Item :=
  ⟨true, fun a => if a = "ExtMin" then some "bogus" else none, [7]⟩

/-- Metadata for a single level 0 whose shape announces 1 channel. -/
def cexMeta : IMSMeta where
  resolution := fun l t c =>
    if l = 0 ∧ t = 0 ∧ c = 0 then some (1, 2, 3) else none
  shape := fun l t c =>
    if l = 0 ∧ t = 0 ∧ c = 0 then some (1, 1, 2, 2, 2) else none

/-- Metadata for a single level 0 whose shape announces 2 channels. -/
def twoChMeta : IMSMeta where
  resolution := fun l t c =>
    if l = 0 ∧ t = 0 ∧ c = 0 then some (1, 2, 3) else none
  shape := fun l t c =>
    if l = 0 ∧ t = 0 ∧ c = 0 then some (1, 2, 2, 2, 2) else none

/-- Metadata for a single level 0 whose shape announces 0 channels. -/
def zeroChMeta : IMSMeta where
  resolution := fun l t c =>
    if l = 0 ∧ t = 0 ∧ c = 0 then some (1, 2, 3) else none
  shape := fun l t c =>
    if l = 0 ∧ t = 0 ∧ c = 0 then some (1, 0, 2, 2, 2) else none

/-- An HDF5 file holding channel groups 0 and 1 under level 0, each with a
single dataset child (no `ExtMin` anywhere). -/
def twoChannelH5 : H5File := fun p =>
  if p = channel_group_path 0 0 ∨ p = channel_group_path 0 1 then
    some [dataItem]
  else none

/-- An HDF5 file with no groups at all. -/
def noGroupH5 : H5File := fun _ => none

/-- An HDF5 file whose level-0 channel-0 group exists but contains only a
sub-group child (no dataset). -/
def emptyGroupH5 : H5File := fun p =>
  if p = channel_group_path 0 0 then some [subGroupItem] else none

/-- An HDF5 file whose level-0 channel-0 group holds one dataset carrying
an unparsable `ExtMin` attribute. -/
def extMinH5 : H5File := fun p =>
  if p = channel_group_path 0 0 then some [extMinItem] else none

/-- A container with contiguous metadata for levels 0 and 1. -/
def sampleMeta : IMSMeta where
  resolution := fun l t c =>
    if l ≤ 1 ∧ t = 0 ∧ c = 0 then some (1, 2, 3) else none
  shape := fun l t c =>
    if l ≤ 1 ∧ t = 0 ∧ c = 0 then some (1, 1, 4, 4, 4) else none

/-- A container with no metadata at all (in particular none for level 0). -/
def emptyMeta : IMSMeta where
  resolution := fun _ _ _ => none
  shape := fun _ _ _ => none

/-- A container whose level-1 resolution key is present but whose level-1
shape key is absent. -/
def gapMeta : IMSMeta where
  resolution := fun l t c =>
    if l ≤ 1 ∧ t = 0 ∧ c = 0 then some (1, 1, 1) else none
  shape := fun l t c =>
    if l = 0 ∧ t = 0 ∧ c = 0 then some (1, 1, 4, 4, 4) else none

/-! ### Level enumeration (claims C1 and C10) -/

lemma get_resolution_levels_loop_ok (m : IMSMeta) (N : Nat)
    (hpres : ∀ l, l < N →
      (m.resolution l 0 0).isSome ∧ (m.shape l 0 0).isSome)
    (habs : m.resolution N 0 0 = none) :
    ∀ fuel k acc, k ≤ N → N - k < fuel →
      ∃ infos, get_resolution_levels_loop m fuel k acc = Except.ok infos ∧
        infos.map LevelInfo.level =
          acc.map LevelInfo.level ++ List.range' k (N - k) := by
  intro fuel
  induction fuel with
  | zero => intro k acc _ hf; omega
  | succ fuel ih =>
    intro k acc hk hf
    rcases Nat.eq_or_lt_of_le hk with hkN | hkN
    · subst hkN
      refine ⟨acc, ?_, ?_⟩
      · simp [get_resolution_levels_loop, habs]
      · simp
    · obtain ⟨hr, hs⟩ := hpres k hkN
      rcases Option.isSome_iff_exists.mp hr with ⟨r, hr2⟩
      rcases Option.isSome_iff_exists.mp hs with ⟨s, hs2⟩
      obtain ⟨infos, h1, h2⟩ := ih (k + 1) (acc ++ [⟨k, r, s⟩]) hkN (by omega)
      refine ⟨infos, ?_, ?_⟩
      · simp [get_resolution_levels_loop, hr2, hs2, h1]
      · rw [h2]
        have hNk : N - k = (N - (k + 1)) + 1 := by omega
        rw [hNk, List.range'_succ]
        simp

/-- Claim C1: for a container whose per-level resolution metadata is
contiguous from 0 (both `resolution` and `shape` keys present for levels
`0 .. N-1`, `resolution` absent at `N`), `get_resolution_levels` returns a
sequence whose `level` fields are exactly `0, 1, ..., N-1`; for a container
with no level-0 metadata (`N = 0`) it returns the empty sequence. -/
theorem get_resolution_levels_contiguous (m : IMSMeta) (N fuel : Nat)
    (hfuel : N < fuel)
    (hpres : ∀ l, l < N →
      (m.resolution l 0 0).isSome ∧ (m.shape l 0 0).isSome)
    (habs : m.resolution N 0 0 = none) :
    Except.map (List.map LevelInfo.level) (get_resolution_levels m fuel) =
      Except.ok (List.range N) := by
  obtain ⟨infos, h1, h2⟩ :=
    get_resolution_levels_loop_ok m N hpres habs fuel 0 [] (Nat.zero_le N)
      (by omega)
  rw [get_resolution_levels, h1]
  simp only [Except.map]
  rw [h2]
  simp [List.range_eq_range']

/-- Witness for C1: a two-level container enumerates as `[0, 1]`, and a
container with no level-0 metadata enumerates as `[]`. -/
theorem get_resolution_levels_contiguous_witness :
    Except.map (List.map LevelInfo.level) (get_resolution_levels sampleMeta 5) =
      Except.ok (List.range 2) ∧
    Except.map (List.map LevelInfo.level) (get_resolution_levels emptyMeta 5) =
      Except.ok (List.range 0) :=
  ⟨get_resolution_levels_contiguous sampleMeta 2 5 (by decide) (by decide)
      (by decide),
   get_resolution_levels_contiguous emptyMeta 0 5 (by decide)
      (fun l hl => absurd hl (Nat.not_lt_zero l)) (by decide)⟩

lemma get_resolution_levels_loop_gap (m : IMSMeta) (L : Nat)
    (hpres : ∀ l, l < L →
      (m.resolution l 0 0).isSome ∧ (m.shape l 0 0).isSome)
    (hres : (m.resolution L 0 0).isSome)
    (hshape : m.shape L 0 0 = none) :
    ∀ fuel k acc, k ≤ L → L - k < fuel →
      get_resolution_levels_loop m fuel k acc =
        Except.error (PyError.keyError L 0 0 "shape") := by
  intro fuel
  induction fuel with
  | zero => intro k acc _ hf; omega
  | succ fuel ih =>
    intro k acc hk hf
    rcases Nat.eq_or_lt_of_le hk with hkL | hkL
    · subst hkL
      rcases Option.isSome_iff_exists.mp hres with ⟨r, hr2⟩
      simp [get_resolution_levels_loop, hr2, hshape]
    · obtain ⟨hr, hs⟩ := hpres k hkL
      rcases Option.isSome_iff_exists.mp hr with ⟨r, hr2⟩
      rcases Option.isSome_iff_exists.mp hs with ⟨s, hs2⟩
      simp only [get_resolution_levels_loop, hr2, hs2]
      exact ih (k + 1) (acc ++ [⟨k, r, s⟩]) hkL (by omega)

/-- Claim C10: only the `resolution` key guards the probe loop.  If the
loop reaches a level whose `resolution` key is present but whose `shape`
key is absent, `get_resolution_levels` raises a `KeyError` (for the shape
key) instead of stopping the enumeration or returning the levels found so
far. -/
theorem get_resolution_levels_shape_keyerror (m : IMSMeta) (L fuel : Nat)
    (hfuel : L < fuel)
    (hpres : ∀ l, l < L →
      (m.resolution l 0 0).isSome ∧ (m.shape l 0 0).isSome)
    (hres : (m.resolution L 0 0).isSome)
    (hshape : m.shape L 0 0 = none) :
    get_resolution_levels m fuel =
      Except.error (PyError.keyError L 0 0 "shape") :=
  get_resolution_levels_loop_gap m L hpres hres hshape fuel 0 []
    (Nat.zero_le L) (by omega)

/-- Witness for C10: on `gapMeta` (level-1 resolution present, level-1
shape absent) the enumeration raises the shape `KeyError`. -/
theorem get_resolution_levels_shape_keyerror_witness :
    get_resolution_levels gapMeta 5 =
      Except.error (PyError.keyError 1 0 0 "shape") :=
  get_resolution_levels_shape_keyerror gapMeta 1 5 (by decide) (by decide)
    (by decide) (by decide)

/-! ### The channel loop of `run` -/

lemma load_channels_zero (h5 : H5File) (lvl : Nat) (sp : ℚ × ℚ × ℚ)
    (og : List ℚ) (ch : Nat) :
    load_channels h5 lvl sp og ch 0 = ([], Except.ok ()) := rfl

lemma load_channels_none_eq (h5 : H5File) (lvl : Nat) (sp : ℚ × ℚ × ℚ)
    (og : List ℚ) (ch n : Nat)
    (hi : h5 (channel_group_path lvl ch) = none) :
    load_channels h5 lvl sp og ch (n + 1) =
      ([], Except.error (PyError.h5KeyError (channel_group_path lvl ch))) := by
  unfold load_channels
  rw [hi]

lemma load_channels_nodata_eq (h5 : H5File) (lvl : Nat) (sp : ℚ × ℚ × ℚ)
    (og : List ℚ) (ch n : Nat) (items : List H5Item)
    (hi : h5 (channel_group_path lvl ch) = some items)
    (hd : find_dataset items = none) :
    load_channels h5 lvl sp og ch (n + 1) =
      ([], Except.error
        (PyError.valueError (no_dataset_msg (channel_group_path lvl ch)))) := by
  conv_lhs => rw [load_channels.eq_def]
  dsimp only
  rw [hi]
  dsimp only
  rw [hd]

lemma load_channels_cons (h5 : H5File) (lvl : Nat) (sp : ℚ × ℚ × ℚ)
    (og : List ℚ) (ch n : Nat) (items : List H5Item) (d : H5Item)
    (hi : h5 (channel_group_path lvl ch) = some items)
    (hd : find_dataset items = some d) :
    load_channels h5 lvl sp og ch (n + 1) =
      (⟨node_name ch lvl, d.data, sp, og⟩ ::
          (load_channels h5 lvl sp og (ch + 1) n).1,
        (load_channels h5 lvl sp og (ch + 1) n).2) := by
  conv_lhs => rw [load_channels.eq_def]
  dsimp only
  rw [hi]
  dsimp only
  rw [hd]

lemma load_channels_ok_spec (h5 : H5File) (lvl : Nat) (sp : ℚ × ℚ × ℚ)
    (og : List ℚ) :
    ∀ n ch,
      (∀ j, j < n → ∃ items d,
        h5 (channel_group_path lvl (ch + j)) = some items ∧
        find_dataset items = some d) →
      (load_channels h5 lvl sp og ch n).2 = Except.ok () ∧
      (load_channels h5 lvl sp og ch n).1.map VolumeNode.name =
        (List.range' ch n).map (fun i => node_name i lvl) ∧
      (load_channels h5 lvl sp og ch n).1.map VolumeNode.spacing =
        List.replicate n sp ∧
      (load_channels h5 lvl sp og ch n).1.map VolumeNode.origin =
        List.replicate n og := by
  intro n
  induction n with
  | zero => intro ch _; simp [load_channels]
  | succ n ih =>
    intro ch h
    obtain ⟨items, d, hi, hd⟩ := h 0 (Nat.succ_pos n)
    have ih2 := ih (ch + 1) (fun j hj => by
      obtain ⟨items2, d2, hi2, hd2⟩ := h (j + 1) (by omega)
      rw [show ch + (j + 1) = ch + 1 + j by omega] at hi2
      exact ⟨items2, d2, hi2, hd2⟩)
    rw [load_channels_cons h5 lvl sp og ch n items d hi hd]
    refine ⟨ih2.1, ?_, ?_, ?_⟩
    · rw [List.range'_succ]
      simp [ih2.2.1]
    · simp [List.replicate_succ, ih2.2.2.1]
    · simp [List.replicate_succ, ih2.2.2.2]

lemma load_channels_spacing_const (h5 : H5File) (lvl : Nat) (sp : ℚ × ℚ × ℚ)
    (og : List ℚ) :
    ∀ n ch,
      (load_channels h5 lvl sp og ch n).1.map VolumeNode.spacing =
        List.replicate (load_channels h5 lvl sp og ch n).1.length sp := by
  intro n
  induction n with
  | zero => intro ch; simp [load_channels]
  | succ n ih =>
    intro ch
    cases hi : h5 (channel_group_path lvl ch) with
    | none => rw [load_channels_none_eq h5 lvl sp og ch n hi]; simp
    | some items =>
      cases hd : find_dataset items with
      | none => rw [load_channels_nodata_eq h5 lvl sp og ch n items hi hd]; simp
      | some d =>
        rw [load_channels_cons h5 lvl sp og ch n items d hi hd]
        simp [List.replicate_succ, ih]

lemma load_channels_error_at (h5 : H5File) (lvl : Nat) (sp : ℚ × ℚ × ℚ)
    (og : List ℚ) (e : PyError) :
    ∀ k n ch, k < n →
      (∀ j, j < k → ∃ items d,
        h5 (channel_group_path lvl (ch + j)) = some items ∧
        find_dataset items = some d) →
      ((h5 (channel_group_path lvl (ch + k)) = none ∧
          e = PyError.h5KeyError (channel_group_path lvl (ch + k))) ∨
        (∃ items, h5 (channel_group_path lvl (ch + k)) = some items ∧
          find_dataset items = none ∧
          e = PyError.valueError (no_dataset_msg (channel_group_path lvl (ch + k))))) →
      (load_channels h5 lvl sp og ch n).2 = Except.error e := by
  intro k
  induction k with
  | zero =>
    intro n ch hn _ hbad
    cases n with
    | zero => exact absurd hn (Nat.not_lt_zero 0)
    | succ n =>
      rcases hbad with ⟨hmiss, he⟩ | ⟨items, hi, hd, he⟩
      · subst he
        rw [load_channels_none_eq h5 lvl sp og ch n hmiss]
        rfl
      · subst he
        rw [load_channels_nodata_eq h5 lvl sp og ch n items hi hd]
        rfl
  | succ k ih =>
    intro n ch hn hgood hbad
    cases n with
    | zero => exact absurd hn (Nat.not_lt_zero _)
    | succ n =>
      obtain ⟨items, d, hi, hd⟩ := hgood 0 (Nat.succ_pos k)
      rw [load_channels_cons h5 lvl sp og ch n items d hi hd]
      have hshift : ch + (k + 1) = ch + 1 + k := by omega
      rw [hshift] at hbad
      exact ih n (ch + 1) (by omega)
        (fun j hj => by
          obtain ⟨i2, d2, h2, h3⟩ := hgood (j + 1) (by omega)
          rw [show ch + (j + 1) = ch + 1 + j by omega] at h2
          exact ⟨i2, d2, h2, h3⟩)
        hbad

/-! ### Characterization of a successful `run` -/

lemma run_ok_spec (m : IMSMeta) (h5 : H5File)
    (parse : String → Option (List ℚ)) (lvl : Nat) (sp : ℚ × ℚ × ℚ)
    (sh : Nat × Nat × Nat × Nat × Nat)
    (hres : m.resolution lvl 0 0 = some sp)
    (hsh : m.shape lvl 0 0 = some sh)
    (hch : ∀ j, j < sh.2.1 → ∃ items d,
      h5 (channel_group_path lvl j) = some items ∧
      find_dataset items = some d) :
    (run m h5 parse lvl).outcome = Except.ok true ∧
    (run m h5 parse lvl).emitted.map VolumeNode.name =
      channel_node_names lvl sh.2.1 ∧
    (run m h5 parse lvl).emitted.map VolumeNode.spacing =
      List.replicate sh.2.1 (sp.2.2, sp.2.1, sp.1) ∧
    (run m h5 parse lvl).emitted.map VolumeNode.origin =
      List.replicate sh.2.1 (read_origin h5 parse).1 ∧
    (run m h5 parse lvl).warnings = (read_origin h5 parse).2 := by
  have hch0 : ∀ j, j < sh.2.1 → ∃ items d,
      h5 (channel_group_path lvl (0 + j)) = some items ∧
      find_dataset items = some d := by
    intro j hj
    rw [Nat.zero_add]
    exact hch j hj
  obtain ⟨h1, h2, h3, h4⟩ :=
    load_channels_ok_spec h5 lvl (sp.2.2, sp.2.1, sp.1)
      (read_origin h5 parse).1 sh.2.1 0 hch0
  unfold run
  rw [hres, hsh]
  dsimp only
  rw [h1]
  refine ⟨rfl, ?_, ?_, ?_, rfl⟩
  · rw [h2, channel_node_names, List.range_eq_range']
  · exact h3
  · exact h4

lemma run_outcome_of_loop_error (m : IMSMeta) (h5 : H5File)
    (parse : String → Option (List ℚ)) (lvl : Nat) (sp : ℚ × ℚ × ℚ)
    (sh : Nat × Nat × Nat × Nat × Nat) (e : PyError)
    (hres : m.resolution lvl 0 0 = some sp)
    (hsh : m.shape lvl 0 0 = some sh)
    (he : (load_channels h5 lvl (sp.2.2, sp.2.1, sp.1)
        (read_origin h5 parse).1 0 sh.2.1).2 = Except.error e) :
    (run m h5 parse lvl).outcome = Except.error e := by
  unfold run
  rw [hres, hsh]
  dsimp only
  rw [he]

lemma read_origin_absent (h5 : H5File) (parse : String → Option (List ℚ))
    (items0 : List H5Item) (hgrp : h5 res0_channel_path = some items0)
    (hext : find_extmin items0 = none) :
    read_origin h5 parse = ([0, 0, 0], []) := by
  unfold read_origin
  rw [hgrp]
  dsimp only
  rw [hext]

lemma read_origin_unparsable (h5 : H5File) (parse : String → Option (List ℚ))
    (items0 : List H5Item) (s : String)
    (hgrp : h5 res0_channel_path = some items0)
    (hext : find_extmin items0 = some s) (hp : parse s = none) :
    read_origin h5 parse = ([0, 0, 0], [origin_warning]) := by
  unfold read_origin
  rw [hgrp]
  dsimp only
  rw [hext]
  dsimp only
  rw [hp]

/-! ### Claim C2: channel-group lookup failures -/

/-- Claim C2: for a requested level and channel index reached by the
channel loop (all earlier channels loadable), the lookup of
`DataSet/ResolutionLevel <level>/TimePoint 0/Channel <channel>` raises a
`KeyError` carrying the attempted path when the group does not exist, and
the distinct `ValueError` of line 256 naming that exact path when the
group exists but contains no dataset child; both abort the load with an
error outcome. -/
theorem run_group_lookup_errors (m : IMSMeta) (h5 : H5File)
    (parse : String → Option (List ℚ)) (lvl k : Nat) (sp : ℚ × ℚ × ℚ)
    (sh : Nat × Nat × Nat × Nat × Nat)
    (hres : m.resolution lvl 0 0 = some sp)
    (hsh : m.shape lvl 0 0 = some sh)
    (hk : k < sh.2.1)
    (hprev : ∀ j, j < k → ∃ items d,
      h5 (channel_group_path lvl j) = some items ∧
      find_dataset items = some d) :
    (h5 (channel_group_path lvl k) = none →
      (run m h5 parse lvl).outcome =
        Except.error (PyError.h5KeyError (channel_group_path lvl k))) ∧
    (∀ items, h5 (channel_group_path lvl k) = some items →
      find_dataset items = none →
      (run m h5 parse lvl).outcome =
        Except.error
          (PyError.valueError (no_dataset_msg (channel_group_path lvl k)))) := by
  have hprev0 : ∀ j, j < k → ∃ items d,
      h5 (channel_group_path lvl (0 + j)) = some items ∧
      find_dataset items = some d := by
    intro j hj
    rw [Nat.zero_add]
    exact hprev j hj
  constructor
  · intro hmiss
    refine run_outcome_of_loop_error m h5 parse lvl sp sh _ hres hsh ?_
    refine load_channels_error_at h5 lvl _ _ _ k sh.2.1 0 hk hprev0
      (Or.inl ⟨?_, ?_⟩)
    · rw [Nat.zero_add]
      exact hmiss
    · rw [Nat.zero_add]
  · intro items hi hd
    refine run_outcome_of_loop_error m h5 parse lvl sp sh _ hres hsh ?_
    refine load_channels_error_at h5 lvl _ _ _ k sh.2.1 0 hk hprev0
      (Or.inr ⟨items, ?_, hd, ?_⟩)
    · rw [Nat.zero_add]
      exact hi
    · rw [Nat.zero_add]

/-- Witness for C2: with no groups at all the load aborts with the path
`KeyError`; with a channel group holding only a sub-group child it aborts
with the `ValueError` naming that exact path. -/
theorem run_group_lookup_errors_witness :
    (run cexMeta noGroupH5 noParse 0).outcome =
      Except.error (PyError.h5KeyError (channel_group_path 0 0)) ∧
    (run cexMeta emptyGroupH5 noParse 0).outcome =
      Except.error
        (PyError.valueError (no_dataset_msg (channel_group_path 0 0))) :=
  ⟨(run_group_lookup_errors cexMeta noGroupH5 noParse 0 0 (1, 2, 3)
      (1, 1, 2, 2, 2) (by decide) (by decide) (by decide)
      (fun j hj => absurd hj (Nat.not_lt_zero j))).1 rfl,
   (run_group_lookup_errors cexMeta emptyGroupH5 noParse 0 0 (1, 2, 3)
      (1, 1, 2, 2, 2) (by decide) (by decide) (by decide)
      (fun j hj => absurd hj (Nat.not_lt_zero j))).2 [subGroupItem] (by rfl)
      rfl⟩

/-! ### Claim C3: display-order spacing -/

/-- Claim C3: the spacing attached to every per-channel tuple emitted for a
requested level equals the stored axis-major `resolution` 3-tuple reversed
into display order (`reverse3`), the reversal of line 222 being applied
exactly once. -/
theorem run_spacing_reversed_once (m : IMSMeta) (h5 : H5File)
    (parse : String → Option (List ℚ)) (lvl : Nat) (sp : ℚ × ℚ × ℚ)
    (hres : m.resolution lvl 0 0 = some sp) :
    (run m h5 parse lvl).emitted.map VolumeNode.spacing =
      List.replicate (run m h5 parse lvl).emitted.length (reverse3 sp) := by
  unfold run
  rw [hres]
  cases hsh : m.shape lvl 0 0 with
  | none => simp
  | some sh =>
    dsimp only
    have hsc := load_channels_spacing_const h5 lvl (sp.2.2, sp.2.1, sp.1)
      (read_origin h5 parse).1 sh.2.1 0
    cases hout : (load_channels h5 lvl (sp.2.2, sp.2.1, sp.1)
        (read_origin h5 parse).1 0 sh.2.1).2 with
    | error e => exact hsc
    | ok u => exact hsc

/-- Witness for C3: on a concrete container with stored axis-major spacing
(1, 2, 3), every emitted spacing is its reversal. -/
theorem run_spacing_reversed_once_witness :
    (run cexMeta twoChannelH5 noParse 0).emitted.map VolumeNode.spacing =
      List.replicate (run cexMeta twoChannelH5 noParse 0).emitted.length
        (reverse3 (1, 2, 3)) :=
  run_spacing_reversed_once cexMeta twoChannelH5 noParse 0 (1, 2, 3) (by decide)

/-! ### Claim C4: channel count and naming -/

/-- Counterexample for C4: the channel count is NOT discovered by listing
the channel children of the timepoint group.  On `cexMeta` the shape
metadata announces 1 channel while the file holds channel groups 0 and 1;
`run` emits a single volume (for channel 0 only). -/
theorem run_channel_count_not_from_listing_cex :
    (run cexMeta twoChannelH5 noParse 0).emitted.map VolumeNode.name =
      [node_name 0 0] ∧
    (twoChannelH5 (channel_group_path 0 1)).isSome = true := by
  constructor
  · rfl
  · rfl

/-- Claim C4 (amended): one tuple is emitted per channel index `0 .. C-1`
where `C` is the channel entry of the level's `shape` metadata tuple
(`shape_tczyx[1]`, line 238), not the number of channel children; spacing
and origin are computed once per level and shared identically across
channels; names have the form `Channel_<index>-res_<level>`. -/
theorem run_emits_shape_channel_count (m : IMSMeta) (h5 : H5File)
    (parse : String → Option (List ℚ)) (lvl : Nat) (sp : ℚ × ℚ × ℚ)
    (sh : Nat × Nat × Nat × Nat × Nat)
    (hres : m.resolution lvl 0 0 = some sp)
    (hsh : m.shape lvl 0 0 = some sh)
    (hch : ∀ j, j < sh.2.1 → ∃ items d,
      h5 (channel_group_path lvl j) = some items ∧
      find_dataset items = some d) :
    (run m h5 parse lvl).outcome = Except.ok true ∧
    (run m h5 parse lvl).emitted.length = sh.2.1 ∧
    (run m h5 parse lvl).emitted.map VolumeNode.name =
      channel_node_names lvl sh.2.1 ∧
    (run m h5 parse lvl).emitted.map VolumeNode.spacing =
      List.replicate sh.2.1 (reverse3 sp) ∧
    (run m h5 parse lvl).emitted.map VolumeNode.origin =
      List.replicate sh.2.1 (read_origin h5 parse).1 := by
  obtain ⟨h1, h2, h3, h4, h5w⟩ := run_ok_spec m h5 parse lvl sp sh hres hsh hch
  refine ⟨h1, ?_, h2, h3, h4⟩
  have hlen := congrArg List.length h2
  simpa [channel_node_names] using hlen

/-- Witness for C4 (amended): a shape announcing 2 channels with both
channel groups present emits exactly the two expected names with shared
spacing and origin. -/
theorem run_emits_shape_channel_count_witness :
    (run twoChMeta twoChannelH5 noParse 0).outcome = Except.ok true ∧
    (run twoChMeta twoChannelH5 noParse 0).emitted.length = 2 ∧
    (run twoChMeta twoChannelH5 noParse 0).emitted.map VolumeNode.name =
      channel_node_names 0 2 ∧
    (run twoChMeta twoChannelH5 noParse 0).emitted.map VolumeNode.spacing =
      List.replicate 2 (reverse3 (1, 2, 3)) ∧
    (run twoChMeta twoChannelH5 noParse 0).emitted.map VolumeNode.origin =
      List.replicate 2 (read_origin twoChannelH5 noParse).1 :=
  run_emits_shape_channel_count twoChMeta twoChannelH5 noParse 0 (1, 2, 3)
    (1, 2, 2, 2, 2) (by decide) (by decide)
    (by
      intro j hj
      interval_cases j
      · exact ⟨[dataItem], dataItem, by rfl, rfl⟩
      · exact ⟨[dataItem], dataItem, by rfl, rfl⟩)

/-! ### Claim C5: origin fallback -/

/-- Counterexample for C5: when the `ExtMin` attribute is merely absent
(channel-0 group present, its dataset has no `ExtMin`), the load succeeds
with the (0, 0, 0) fallback but records NO warning, contradicting the
claim that a warning is recorded whenever the attribute is absent. -/
theorem run_absent_extmin_no_warning_cex :
    (run cexMeta twoChannelH5 noParse 0).warnings = [] ∧
    (run cexMeta twoChannelH5 noParse 0).outcome = Except.ok true ∧
    (run cexMeta twoChannelH5 noParse 0).emitted.map VolumeNode.origin =
      [[0, 0, 0]] := by
  refine ⟨rfl, rfl, rfl⟩

/-- Claim C5 (amended): origin failures never abort the load and always
fall back to (0.0, 0.0, 0.0); a warning is recorded when the origin lookup
raises (here: unparsable `ExtMin` text), but when the attribute is merely
absent the fallback is silent (no warning). -/
theorem run_origin_failures_never_abort (m : IMSMeta) (h5 : H5File)
    (parse : String → Option (List ℚ)) (lvl : Nat) (sp : ℚ × ℚ × ℚ)
    (sh : Nat × Nat × Nat × Nat × Nat) (items0 : List H5Item)
    (hres : m.resolution lvl 0 0 = some sp)
    (hsh : m.shape lvl 0 0 = some sh)
    (hch : ∀ j, j < sh.2.1 → ∃ items d,
      h5 (channel_group_path lvl j) = some items ∧
      find_dataset items = some d)
    (hgrp : h5 res0_channel_path = some items0) :
    (find_extmin items0 = none →
      (run m h5 parse lvl).outcome = Except.ok true ∧
      (run m h5 parse lvl).warnings = [] ∧
      (run m h5 parse lvl).emitted.map VolumeNode.origin =
        List.replicate sh.2.1 ([0, 0, 0] : List ℚ)) ∧
    (∀ s, find_extmin items0 = some s → parse s = none →
      (run m h5 parse lvl).outcome = Except.ok true ∧
      (run m h5 parse lvl).warnings = [origin_warning] ∧
      (run m h5 parse lvl).emitted.map VolumeNode.origin =
        List.replicate sh.2.1 ([0, 0, 0] : List ℚ)) := by
  obtain ⟨h1, h2, h3, h4, h5w⟩ := run_ok_spec m h5 parse lvl sp sh hres hsh hch
  constructor
  · intro hext
    have hro := read_origin_absent h5 parse items0 hgrp hext
    refine ⟨h1, ?_, ?_⟩
    · rw [h5w, hro]
    · rw [h4, hro]
  · intro s hext hp
    have hro := read_origin_unparsable h5 parse items0 s hgrp hext hp
    refine ⟨h1, ?_, ?_⟩
    · rw [h5w, hro]
    · rw [h4, hro]

/-- Witness for C5 (amended): unparsable `ExtMin` text yields the
(0, 0, 0) fallback plus the warning and the load succeeds; an absent
`ExtMin` yields the silent fallback and the load succeeds. -/
theorem run_origin_failures_never_abort_witness :
    ((run cexMeta extMinH5 noParse 0).outcome = Except.ok true ∧
      (run cexMeta extMinH5 noParse 0).warnings = [origin_warning] ∧
      (run cexMeta extMinH5 noParse 0).emitted.map VolumeNode.origin =
        List.replicate 1 ([0, 0, 0] : List ℚ)) ∧
    ((run cexMeta twoChannelH5 noParse 0).outcome = Except.ok true ∧
      (run cexMeta twoChannelH5 noParse 0).warnings = [] ∧
      (run cexMeta twoChannelH5 noParse 0).emitted.map VolumeNode.origin =
        List.replicate 1 ([0, 0, 0] : List ℚ)) :=
  ⟨(run_origin_failures_never_abort cexMeta extMinH5 noParse 0 (1, 2, 3)
      (1, 1, 2, 2, 2) [extMinItem] (by decide) (by decide)
      (by
        intro j hj
        interval_cases j
        exact ⟨[extMinItem], extMinItem, by rfl, rfl⟩)
      (by rfl)).2 "bogus" rfl rfl,
   (run_origin_failures_never_abort cexMeta twoChannelH5 noParse 0 (1, 2, 3)
      (1, 1, 2, 2, 2) [dataItem] (by decide) (by decide)
      (by
        intro j hj
        interval_cases j
        exact ⟨[dataItem], dataItem, by rfl, rfl⟩)
      (by rfl)).1 rfl⟩

/-! ### Claim C7: zero channels -/

/-- Counterexample for C7: when the shape metadata announces zero channels
(and the file holds no channel groups at all), `run` completes
successfully with no emitted volumes instead of raising a DataAbsent-style
error. -/
theorem run_zero_channels_success_cex :
    (run zeroChMeta noGroupH5 noParse 0).outcome = Except.ok true ∧
    (run zeroChMeta noGroupH5 noParse 0).emitted = [] := by
  refine ⟨rfl, rfl⟩

/-- Claim C7 (amended): when the channel count taken from the shape
metadata is zero, the channel loop body never executes and `run` completes
successfully emitting no volumes (no error is raised). -/
theorem run_zero_channels_completes (m : IMSMeta) (h5 : H5File)
    (parse : String → Option (List ℚ)) (lvl : Nat) (sp : ℚ × ℚ × ℚ)
    (sh : Nat × Nat × Nat × Nat × Nat)
    (hres : m.resolution lvl 0 0 = some sp)
    (hsh : m.shape lvl 0 0 = some sh)
    (hzero : sh.2.1 = 0) :
    (run m h5 parse lvl).outcome = Except.ok true ∧
    (run m h5 parse lvl).emitted = [] := by
  obtain ⟨h1, h2, h3, h4, h5w⟩ := run_ok_spec m h5 parse lvl sp sh hres hsh
    (by
      intro j hj
      rw [hzero] at hj
      exact absurd hj (Nat.not_lt_zero j))
  refine ⟨h1, ?_⟩
  rw [hzero] at h2
  have hlen := congrArg List.length h2
  simp [channel_node_names] at hlen
  exact hlen

/-- Witness for C7 (amended): zero-channel shape metadata over a file that
does hold channel groups still completes without emitting anything. -/
theorem run_zero_channels_completes_witness :
    (run zeroChMeta twoChannelH5 noParse 0).outcome = Except.ok true ∧
    (run zeroChMeta twoChannelH5 noParse 0).emitted = [] :=
  run_zero_channels_completes zeroChMeta twoChannelH5 noParse 0 (1, 2, 3)
    (1, 0, 2, 2, 2) (by decide) (by decide) rfl

/-! ### Claim C9: determinism -/

/-- Claim C9: `run` is deterministic.  The embedding is pure (the code
holds no mutable state across calls, re-reads every value from the
container and uses no randomness or time), so two calls with identical
metadata, identical file contents, the same parse oracle and the same
requested level produce identical results: bit-identical arrays and
identical spacing and origin tuples. -/
theorem run_deterministic (m m2 : IMSMeta) (h5 h6 : H5File)
    (parse parse2 : String → Option (List ℚ)) (lvl lvl2 : Nat)
    (hm : m = m2) (hh : h5 = h6) (hp : parse = parse2) (hl : lvl = lvl2) :
    run m h5 parse lvl = run m2 h6 parse2 lvl2 := by
  subst hm
  subst hh
  subst hp
  subst hl
  rfl

/-- Witness for C9: two identical concrete calls agree. -/
theorem run_deterministic_witness :
    run cexMeta twoChannelH5 noParse 0 = run cexMeta twoChannelH5 noParse 0 :=
  run_deterministic cexMeta cexMeta twoChannelH5 twoChannelH5 noParse noParse
    0 0 rfl rfl rfl rfl

/-! ### Claim C6: Strategy B spacing synthesis (spec-modelled) -/

/-- Claim C6: for every level `L ≥ 0` and positive base spacing 3-tuple
(taken to be level 0, display order), Strategy B synthesizes the spacing
`base * 2 ^ L` componentwise, exactly. -/
theorem strategyB_spacing_law (b1 b2 b3 : ℚ) (L : Nat)
    (h1 : 0 < b1) (h2 : 0 < b2) (h3 : 0 < b3) :
    strategyB_spacing [b1, b2, b3] L = [b1 * 2 ^ L, b2 * 2 ^ L, b3 * 2 ^ L] := by
  simp [strategyB_spacing]

/-- Witness for C6: the spec scenario, base (0.018, 0.018, 0.040) at level
2 scales by 4 per axis. -/
theorem strategyB_spacing_law_witness :
    (0 : ℚ) < 9 / 500 ∧ (0 : ℚ) < 1 / 25 ∧
    strategyB_spacing [9 / 500, 9 / 500, 1 / 25] 2 =
      [(9 : ℚ) / 500 * 2 ^ 2, 9 / 500 * 2 ^ 2, 1 / 25 * 2 ^ 2] :=
  ⟨by norm_num, by norm_num,
    strategyB_spacing_law (9 / 500) (9 / 500) (1 / 25) 2 (by norm_num)
      (by norm_num) (by norm_num)⟩

end ImarisReader
